import Mathlib

/-!
Shallow embedding of `src/lib/python/briar/service.py` (ORNL/BRIAR-API).

The file models, faithfully to the Python source:
* the exceptions the module raises (`PyError`),
* the observable effect of calling a method (`PyCall`: stdout lines plus
  either a returned value or a raised exception),
* `BRIARService.__init__` (environment-variable check and weight paths),
* the RPC handlers (`get_api_version`, `status`, and the unimplemented
  `detect`/`extract`/.../`database_finalize` bodies),
* the `serve()` start-up configuration and its idle main loop.

Protobuf message types (`APIVersion`, `StatusReply`, `BriarServiceStatus`)
are declared in proto files of the repository that are not part of the
checked sources; they are modelled from the spec where noted.
-/

set_option autoImplicit false

namespace Briar

/-- Python exceptions raised by code in `service.py`. -/
inductive PyError where
  | environmentError (msg : String)
  | notImplementedError
  deriving DecidableEq, Repr

/-- The result of calling a Python function: it either returns a value or
raises an exception. -/
inductive HandlerOutcome (α : Type) where
  | returned (value : α)
  | raised (e : PyError)
  deriving DecidableEq, Repr

/-- `true` exactly when the call returned normally. -/
def HandlerOutcome.isReturned {α : Type} : HandlerOutcome α → Bool
  | .returned _ => true
  | .raised _ => false

/-- The observable effect of one Python call: the lines printed to stdout,
in order, and the outcome (returned value or raised exception). -/
structure PyCall (α : Type) where
  stdout : List String
  outcome : HandlerOutcome α
  deriving DecidableEq, Repr

/-- The process environment (`os.environ`), as an association list from
variable names to values; `lookup` models membership test plus read. -/
abbrev Env := List (String × String)

/-- `true` when the first character of `s` is `c`. -/
def str_head_is (c : Char) (s : String) : Bool :=
  match s.data with
  | [] => false
  | d :: _ => d == c

/-- `true` when the last character of `s` is `c`. -/
def str_last_is (c : Char) (s : String) : Bool :=
  match s.data.getLast? with
  | none => false
  | some d => d == c

/-- Model of POSIX `os.path.join` on two components: an absolute second
component discards the first; otherwise a single separator is inserted
unless the first component is empty or already ends with one. -/
def path_join2 (a b : String) : String :=
  if str_head_is '/' b then b
  else if a = "" then b
  else if str_last_is '/' a then a ++ b
  else a ++ "/" ++ b

/-- `os.path.join(a, b, c)`, folded left as in CPython. -/
def path_join3 (a b c : String) : String :=
  path_join2 (path_join2 a b) c

namespace BRIARService

/-- `BRIARService.DEFAULT_WEIGHTS_DIR` (class attribute). -/
def DEFAULT_WEIGHTS_DIR : String := "weights"

/-- `BRIARService.DEFAULT_PREDICTOR_NAME` (class attribute). -/
def DEFAULT_PREDICTOR_NAME : String := "predictor_model.dat"

/-- `BRIARService.DEFAULT_REC_MODEL_NAME` (class attribute). -/
def DEFAULT_REC_MODEL_NAME : String := "recognition_model.dat"

/-- The instance attributes `__init__` stores on a `BRIARService` object:
`self.predictor_path`, `self.rec_model_path` and `self.options`.  The
`database_path` argument is not stored, so the structure has no field for
it.  `α` is the (arbitrary) type of the `options` object. -/
structure State (α : Type) where
  predictor_path : String
  rec_model_path : String
  options : Option α
  deriving DecidableEq, Repr

/-- `BRIARService.__init__(self, options=None, database_path="databases")`:
raises `EnvironmentError` when `BRIAR_DIR` is not in `os.environ`, and
otherwise stores the two weight-file paths (joined from the `BRIAR_DIR`
value and the class-attribute defaults) and the `options` object.  The
source's default for `database_path` is `"databases"`; the argument is
otherwise unused. -/
def mk_init {α : Type} (env : Env) (options : Option α) (database_path : String) :
    Except PyError (State α) :=
  match env.lookup "BRIAR_DIR" with
  | none =>
      .error (.environmentError
        ("The default Briar directory is not specified in your " ++
         "system's environment variables."))
  | some briar_dir =>
      .ok { predictor_path :=
              path_join3 briar_dir DEFAULT_WEIGHTS_DIR DEFAULT_PREDICTOR_NAME,
            rec_model_path :=
              path_join3 briar_dir DEFAULT_WEIGHTS_DIR DEFAULT_REC_MODEL_NAME,
            options := options }

/-- `__init__` with the state of the filesystem made explicit: `fs d = true`
means directory `d` exists on disk.  The Python constructor reads only
`os.environ` and never touches the filesystem, so the parameter is unused;
it is exposed so that properties about absent directories can be stated. -/
def mk_init_fs {α : Type} (fs : String → Bool) (env : Env) (options : Option α)
    (database_path : String) : Except PyError (State α) :=
  mk_init env options database_path

/-- `true` exactly when the constructor returned an instance rather than
raising. -/
def initSucceeds {α : Type} : Except PyError (State α) → Bool
  | .ok _ => true
  | .error _ => false

end BRIARService

/-- Modelled from the spec: `briar_pb2.APIVersion`, the "fixed
{major, minor, patch} triple" message; its declaration lives in the proto
files, outside the checked sources, but its three fields are visible at
the construction sites in `service.py`. -/
structure APIVersion where
  major : Nat
  minor : Nat
  patch : Nat
  deriving DecidableEq, Repr

/-- Modelled from the spec: `briar_pb2.BriarServiceStatus`, the liveness
enum "{READY, DEGRADED, UNAVAILABLE}"; declared in the proto files outside
the checked sources (`service.py` uses only `READY`). -/
inductive BriarServiceStatus where
  | READY
  | DEGRADED
  | UNAVAILABLE
  deriving DecidableEq, Repr

/-- Modelled from the spec: `briar_service_pb2.StatusReply`, carrying the
free-form service metadata and the liveness value; declared in the proto
files outside the checked sources, with the four fields visible at the
construction site in `BRIARService.status`. -/
structure StatusReply where
  developer_name : String
  service_name : String
  version : APIVersion
  status : BriarServiceStatus
  deriving DecidableEq, Repr

namespace BRIARService

/-- `BRIARService.get_api_version(self, request, context)`: returns the
constant `briar_pb2.APIVersion(major=1, minor=2, patch=3)`.  `ρ` and `γ`
are the (arbitrary) types of the request and the grpc context. -/
def get_api_version {ρ γ : Type} (request : ρ) (context : γ) :
    PyCall APIVersion :=
  { stdout := [],
    outcome := .returned { major := 1, minor := 2, patch := 3 } }

/-- `BRIARService.status(self, request, context)`: returns a constant
`StatusReply` with placeholder metadata, version 1.2.3 and status READY. -/
def status {ρ γ : Type} (request : ρ) (context : γ) : PyCall StatusReply :=
  { stdout := [],
    outcome := .returned
      { developer_name := "[devname-here]",
        service_name := "This is a service",
        version := { major := 1, minor := 2, patch := 3 },
        status := .READY } }

/-- `BRIARService.detect(self, req_iter, context)`: the body is
`raise NotImplementedError`.  The request iterator is modelled as a list;
`δ` is the reply type, unconstrained because no reply is ever produced. -/
def detect {ρ γ δ : Type} (req_iter : List ρ) (context : γ) :
    PyCall (List δ) :=
  { stdout := [], outcome := .raised .notImplementedError }

/-- `BRIARService.extract(self, req_iter, context)`: the body is
`raise NotImplementedError`. -/
def extract {ρ γ δ : Type} (req_iter : List ρ) (context : γ) :
    PyCall (List δ) :=
  { stdout := [], outcome := .raised .notImplementedError }

/-- `BRIARService.enroll(self, req_iter, context)`: prints "Enrolling..."
then executes `raise NotImplementedError`. -/
def enroll {ρ γ δ : Type} (req_iter : List ρ) (context : γ) :
    PyCall (List δ) :=
  { stdout := ["Enrolling..."], outcome := .raised .notImplementedError }

/-- `BRIARService.verify(self, request, context)`: prints
"Verifying template matches" then executes `raise NotImplementedError`. -/
def verify {ρ γ δ : Type} (request : ρ) (context : γ) : PyCall δ :=
  { stdout := ["Verifying template matches"],
    outcome := .raised .notImplementedError }

/-- `BRIARService.search(self, request, context)`: prints
"Searching Templates" then executes `raise NotImplementedError`. -/
def search {ρ γ δ : Type} (request : ρ) (context : γ) : PyCall δ :=
  { stdout := ["Searching Templates"],
    outcome := .raised .notImplementedError }

/-- `BRIARService.cluster(self, request, context)`: the body is
`raise NotImplementedError`. -/
def cluster {ρ γ δ : Type} (request : ρ) (context : γ) : PyCall δ :=
  { stdout := [], outcome := .raised .notImplementedError }

/-- `BRIARService.enhance(self, request, context)`: the body is
`raise NotImplementedError`. -/
def enhance {ρ γ δ : Type} (request : ρ) (context : γ) : PyCall δ :=
  { stdout := [], outcome := .raised .notImplementedError }

/-- `BRIARService.database_create(self, request, context)`: the body is
`raise NotImplementedError`. -/
def database_create {ρ γ δ : Type} (request : ρ) (context : γ) : PyCall δ :=
  { stdout := [], outcome := .raised .notImplementedError }

/-- `BRIARService.database_load(self, request, context)`: the body is
`raise NotImplementedError`. -/
def database_load {ρ γ δ : Type} (request : ρ) (context : γ) : PyCall δ :=
  { stdout := [], outcome := .raised .notImplementedError }

/-- `BRIARService.database_insert(self, request, context)`: the body is
`raise NotImplementedError`. -/
def database_insert {ρ γ δ : Type} (request : ρ) (context : γ) : PyCall δ :=
  { stdout := [], outcome := .raised .notImplementedError }

/-- `BRIARService.database_retrieve(self, request, context)`: the body is
`raise NotImplementedError`. -/
def database_retrieve {ρ γ δ : Type} (request : ρ) (context : γ) : PyCall δ :=
  { stdout := [], outcome := .raised .notImplementedError }

/-- `BRIARService.database_remove_templates(self, request, context)`: the
body is `raise NotImplementedError`. -/
def database_remove_templates {ρ γ δ : Type} (request : ρ) (context : γ) :
    PyCall δ :=
  { stdout := [], outcome := .raised .notImplementedError }

/-- `BRIARService.database_names(self, request, context)`: the body is
`raise NotImplementedError`. -/
def database_names {ρ γ δ : Type} (request : ρ) (context : γ) : PyCall δ :=
  { stdout := [], outcome := .raised .notImplementedError }

/-- `BRIARService.database_list_templates(self, request, context)`: the
body is `raise NotImplementedError`. -/
def database_list_templates {ρ γ δ : Type} (request : ρ) (context : γ) :
    PyCall δ :=
  { stdout := [], outcome := .raised .notImplementedError }

/-- `BRIARService.database_finalize(self, request, context)`: the body is
`raise NotImplementedError`. -/
def database_finalize {ρ γ δ : Type} (request : ρ) (context : γ) : PyCall δ :=
  { stdout := [], outcome := .raised .notImplementedError }

end BRIARService

/-- One item of a streamed exchange, tagged with its sequence index within
the exchange (spec §3 "Item"). -/
structure IndexedItem (π : Type) where
  sequence_index : Nat
  payload : π
  deriving DecidableEq, Repr

/-- How a streamed exchange ends: normal completion, a sequence-index
violation reported with the offending index, or a Python exception raised
by the handler (which grpc surfaces as an RPC error). -/
inductive ExchangeTermination where
  | completed
  | sequenceViolation (offending_index : Nat)
  | raised (e : PyError)
  deriving DecidableEq, Repr

/-- What the caller of a streamed exchange observes: the replies actually
emitted, in order, and how the exchange terminated. -/
structure StreamExchangeResult (δ : Type) where
  replies : List δ
  termination : ExchangeTermination
  deriving DecidableEq, Repr

/-- Drives one server-side streaming handler to completion.  Every
streaming handler in `service.py` is a plain function (it contains no
`yield`), so grpc calls it once with the request iterator: if it returns a
list of replies they are all streamed, and if it raises, the exchange
aborts with that exception before any reply is emitted. -/
def runStreamExchange {ι γ δ : Type}
    (handler : List ι → γ → PyCall (List δ)) (items : List ι) (context : γ) :
    StreamExchangeResult δ :=
  match (handler items context).outcome with
  | .returned rs => { replies := rs, termination := .completed }
  | .raised e => { replies := [], termination := .raised e }

/-- The server configuration fixed by `serve()`:
`grpc.server(futures.ThreadPoolExecutor(max_workers=10), options=[...])`
with 20000000-byte send and receive limits, no `maximum_concurrent_rpcs`
argument, and the insecure port `DEFAULT_SERVE_PORT` (a constant imported
from the `briar` package, kept here as a parameter). -/
structure ServerConfig where
  thread_pool_max_workers : Nat
  maximum_concurrent_rpcs : Option Nat
  max_send_message_length : Nat
  max_receive_message_length : Nat
  port : String
  deriving DecidableEq, Repr

/-- The configuration values `serve()` passes when building the server. -/
def serve_config (default_serve_port : String) : ServerConfig :=
  { thread_pool_max_workers := 10,
    maximum_concurrent_rpcs := none,
    max_send_message_length := 20000000,
    max_receive_message_length := 20000000,
    port := default_serve_port }

/-- The server state right after `serve()` has called `server.start()`. -/
structure ServerState where
  config : ServerConfig
  started : Bool
  deriving DecidableEq, Repr

/-- The state `serve()` reaches before entering its main loop. -/
def serve_start (default_serve_port : String) : ServerState :=
  { config := serve_config default_serve_port, started := true }

/-- One iteration of `serve()`'s main loop,
`while True: time.sleep(0.1)`: it touches no server state. -/
def serve_loop_step (s : ServerState) : ServerState := s

/-- What happens to one more incoming RPC given the active-RPC count.
Modelled from the grpc Python library contract for `grpc.server`: an RPC
is rejected with `RESOURCE_EXHAUSTED` only when `maximum_concurrent_rpcs`
is set and already reached; otherwise it is accepted, waiting in the
thread pool's queue whenever all workers are busy. -/
inductive AdmissionResult where
  | admitted
  | queued
  | rejectedResourceExhausted
  deriving DecidableEq, Repr

/-- Admission of one more RPC under configuration `cfg` with `active`
RPCs already in progress (grpc library contract, see `AdmissionResult`). -/
def grpc_admission (cfg : ServerConfig) (active : Nat) : AdmissionResult :=
  match cfg.maximum_concurrent_rpcs with
  | some m =>
      if m ≤ active then .rejectedResourceExhausted
      else if cfg.thread_pool_max_workers ≤ active then .queued
      else .admitted
  | none =>
      if cfg.thread_pool_max_workers ≤ active then .queued
      else .admitted

/-- A probe payload for streamed items, marking whether the external
biometric engine would fail on this item.  The handlers in `service.py`
never reach any engine, so the flag lets per-item-failure properties be
stated without constraining the handler. -/
structure ExtractItem where
  engine_fails : Bool
  deriving DecidableEq, Repr

end Briar

namespace Briar

/-- C1 (amended): construction of a `BRIARService` fails, at construction
time, exactly when the `BRIAR_DIR` environment variable is absent from the
process environment; the database storage directory plays no role: the
constructor's result is independent of the filesystem state and of the
`database_path` argument, and with `BRIAR_DIR` set it always succeeds. -/
theorem C1_init_fails_iff_briar_dir_unset (α : Type) (fs fs' : String → Bool)
    (env : Env) (opts : Option α) (dp dp' : String) :
    BRIARService.initSucceeds (BRIARService.mk_init_fs fs env opts dp)
        = (env.lookup "BRIAR_DIR").isSome
    ∧ BRIARService.mk_init_fs fs env opts dp
        = BRIARService.mk_init_fs fs' env opts dp' := by
  refine ⟨?_, rfl⟩
  cases h : env.lookup "BRIAR_DIR" <;>
    simp [BRIARService.mk_init_fs, BRIARService.mk_init,
      BRIARService.initSucceeds, h]

/-- C1 counterexample: in an environment where `BRIAR_DIR` is set but no
directory exists on disk at all — in particular the database storage
directory `"databases"` is absent — construction succeeds, contradicting
the claim that an absent database storage directory is a fatal startup
error. -/
theorem C1_database_dir_not_required :
    BRIARService.initSucceeds
        (BRIARService.mk_init_fs (fun _ => false)
          [("BRIAR_DIR", "/opt/briar")] (none : Option Unit) "databases")
      = true := rfl

/-- C2 (amended): every declared operation whose handler is unimplemented
(`detect`, `extract`, `enroll`, `verify`, `search`, `cluster`, `enhance`
and all `database_*` operations) uniformly raises `NotImplementedError`
when invoked; the exception is propagated out of the handler (so grpc
surfaces it as an exchange-aborting RPC error), not converted into a
structured reply. -/
theorem C2_unimplemented_handlers_raise (ρ γ δ : Type) (ri : List ρ) (r : ρ)
    (c : γ) :
    (BRIARService.detect ri c : PyCall (List δ)).outcome
        = .raised .notImplementedError
    ∧ (BRIARService.extract ri c : PyCall (List δ)).outcome
        = .raised .notImplementedError
    ∧ (BRIARService.enroll ri c : PyCall (List δ)).outcome
        = .raised .notImplementedError
    ∧ (BRIARService.verify r c : PyCall δ).outcome
        = .raised .notImplementedError
    ∧ (BRIARService.search r c : PyCall δ).outcome
        = .raised .notImplementedError
    ∧ (BRIARService.cluster r c : PyCall δ).outcome
        = .raised .notImplementedError
    ∧ (BRIARService.enhance r c : PyCall δ).outcome
        = .raised .notImplementedError
    ∧ (BRIARService.database_create r c : PyCall δ).outcome
        = .raised .notImplementedError
    ∧ (BRIARService.database_load r c : PyCall δ).outcome
        = .raised .notImplementedError
    ∧ (BRIARService.database_insert r c : PyCall δ).outcome
        = .raised .notImplementedError
    ∧ (BRIARService.database_retrieve r c : PyCall δ).outcome
        = .raised .notImplementedError
    ∧ (BRIARService.database_remove_templates r c : PyCall δ).outcome
        = .raised .notImplementedError
    ∧ (BRIARService.database_names r c : PyCall δ).outcome
        = .raised .notImplementedError
    ∧ (BRIARService.database_list_templates r c : PyCall δ).outcome
        = .raised .notImplementedError
    ∧ (BRIARService.database_finalize r c : PyCall δ).outcome
        = .raised .notImplementedError :=
  ⟨rfl, rfl, rfl, rfl, rfl, rfl, rfl, rfl, rfl, rfl, rfl, rfl, rfl, rfl, rfl⟩

/-- C2 counterexample: invoking the unimplemented `detect` handler raises
`NotImplementedError` as a propagated exception and returns no structured
reply at all, contradicting the claim that the condition is returned
uniformly to the caller as a structured reply rather than propagated. -/
theorem C2_detect_raises_not_returned :
    (BRIARService.detect ([] : List Unit) () : PyCall (List Unit)).outcome
        = .raised .notImplementedError
    ∧ ((BRIARService.detect ([] : List Unit) () : PyCall (List Unit)).outcome).isReturned
        = false :=
  ⟨rfl, rfl⟩

/-- C3: `get_api_version` is a constant function of its inputs, returning
the fixed version triple major=1, minor=2, patch=3 for every request and
context (of any types). -/
theorem C3_get_api_version_constant (ρ γ ρ' γ' : Type) (r : ρ) (c : γ)
    (r' : ρ') (c' : γ') :
    BRIARService.get_api_version r c
        = { stdout := [],
            outcome := .returned { major := 1, minor := 2, patch := 3 } }
    ∧ BRIARService.get_api_version r c = BRIARService.get_api_version r' c' :=
  ⟨rfl, rfl⟩

/-- C4: `status` never raises: for every request and context it returns a
reply whose liveness value is drawn from {READY, DEGRADED, UNAVAILABLE}
(it is READY) together with the free-form service metadata (developer
name, service name, version). -/
theorem C4_status_never_fails (ρ γ : Type) (r : ρ) (c : γ) :
    ∃ reply : StatusReply,
      (BRIARService.status r c).outcome = .returned reply
      ∧ reply.status ∈ [BriarServiceStatus.READY, .DEGRADED, .UNAVAILABLE]
      ∧ reply.developer_name = "[devname-here]"
      ∧ reply.service_name = "This is a service"
      ∧ reply.version = { major := 1, minor := 2, patch := 3 } :=
  ⟨_, rfl, by decide, rfl, rfl, rfl⟩

/-- C5 (amended): submitting a stream of items with sequence indices
[0, 1, 3] (a gap after index 1) to the streaming operation `detect` yields
no replies at all: the handler raises `NotImplementedError` before any
item is examined, so no reply is emitted for item 1, no sequence
validation happens, and no reply is produced for index 3. -/
theorem C5_gap_stream_no_replies (π γ δ : Type) (p0 p1 p3 : π) (c : γ) :
    runStreamExchange
        (fun ri cc => (BRIARService.detect ri cc : PyCall (List δ)))
        [(⟨0, p0⟩ : IndexedItem π), ⟨1, p1⟩, ⟨3, p3⟩] c
      = { replies := [], termination := .raised .notImplementedError } := rfl

/-- C5 counterexample: for the concrete stream with indices [0, 1, 3], the
`detect` exchange emits zero replies (so item 1's reply is never emitted)
and terminates by raising `NotImplementedError`, not with a
`SequenceViolation` abort. -/
theorem C5_gap_stream_counterexample :
    (runStreamExchange
        (fun ri cc => (BRIARService.detect ri cc : PyCall (List Unit)))
        [(⟨0, ()⟩ : IndexedItem Unit), ⟨1, ()⟩, ⟨3, ()⟩] ()).replies.length = 0
    ∧ (runStreamExchange
        (fun ri cc => (BRIARService.detect ri cc : PyCall (List Unit)))
        [(⟨0, ()⟩ : IndexedItem Unit), ⟨1, ()⟩, ⟨3, ()⟩] ()).termination
        = .raised .notImplementedError
    ∧ (runStreamExchange
        (fun ri cc => (BRIARService.detect ri cc : PyCall (List Unit)))
        [(⟨0, ()⟩ : IndexedItem Unit), ⟨1, ()⟩, ⟨3, ()⟩] ()).termination
        ≠ .sequenceViolation 3 :=
  ⟨rfl, rfl, by decide⟩

/-- C6 (amended): for every 3-item input stream to `extract` in which
exactly one item is the one the engine would fail on, the caller receives
zero replies, not three: `extract` raises `NotImplementedError` before
processing any item, so no per-item partial-failure handling occurs. -/
theorem C6_extract_aborts_whole_stream (γ δ : Type) (c : γ)
    (a b d : ExtractItem)
    (h : ([a, b, d].filter fun x => x.engine_fails).length = 1) :
    runStreamExchange
        (fun ri cc => (BRIARService.extract ri cc : PyCall (List δ)))
        [(⟨0, a⟩ : IndexedItem ExtractItem), ⟨1, b⟩, ⟨2, d⟩] c
      = { replies := [], termination := .raised .notImplementedError } := rfl

/-- C6 witness: the amended theorem applied to the concrete 3-item stream
whose middle item is the failing one. -/
theorem C6_extract_aborts_whole_stream_witness :
    (([⟨false⟩, ⟨true⟩, ⟨false⟩] : List ExtractItem).filter
        fun x => x.engine_fails).length = 1
    ∧ runStreamExchange
        (fun ri cc => (BRIARService.extract ri cc : PyCall (List Unit)))
        [(⟨0, ⟨false⟩⟩ : IndexedItem ExtractItem), ⟨1, ⟨true⟩⟩, ⟨2, ⟨false⟩⟩] ()
      = { replies := [], termination := .raised .notImplementedError } :=
  ⟨by decide,
   C6_extract_aborts_whole_stream Unit Unit () ⟨false⟩ ⟨true⟩ ⟨false⟩ (by decide)⟩

/-- C6 counterexample: on the concrete 3-item stream whose middle item is
marked as the engine-failing one, `extract` yields 0 replies rather than
the claimed 3, terminating with a raised `NotImplementedError`. -/
theorem C6_extract_counterexample :
    (runStreamExchange
        (fun ri cc => (BRIARService.extract ri cc : PyCall (List Unit)))
        [(⟨0, ⟨false⟩⟩ : IndexedItem ExtractItem), ⟨1, ⟨true⟩⟩, ⟨2, ⟨false⟩⟩]
        ()).replies.length = 0
    ∧ (runStreamExchange
        (fun ri cc => (BRIARService.extract ri cc : PyCall (List Unit)))
        [(⟨0, ⟨false⟩⟩ : IndexedItem ExtractItem), ⟨1, ⟨true⟩⟩, ⟨2, ⟨false⟩⟩]
        ()).termination = .raised .notImplementedError :=
  ⟨rfl, rfl⟩

/-- C7 (amended): `serve()` configures no limit on concurrent exchanges
(`maximum_concurrent_rpcs` is absent), so once the 10 thread-pool workers
are all busy an additional invocation is queued until a worker frees; it
is never rejected with `ResourceExhausted`. -/
theorem C7_excess_invocation_queued (port : String) (active : Nat)
    (h : 10 ≤ active) :
    grpc_admission (serve_config port) active = .queued
    ∧ (serve_config port).maximum_concurrent_rpcs = none := by
  refine ⟨?_, rfl⟩
  simp [grpc_admission, serve_config, h]

/-- C7 witness: the amended theorem at a concrete port with all 10 workers
busy. -/
theorem C7_excess_invocation_queued_witness :
    10 ≤ 10
    ∧ (grpc_admission (serve_config "[::]:50051") 10 = .queued
       ∧ (serve_config "[::]:50051").maximum_concurrent_rpcs = none) :=
  ⟨by decide, C7_excess_invocation_queued "[::]:50051" 10 (by decide)⟩

/-- C7 counterexample: with the configuration `serve()` builds and 10
exchanges already active (the whole worker pool), one more invocation is
queued, not rejected with `ResourceExhausted`; indeed no concurrency
limit (`maximum_concurrent_rpcs`) is configured at all. -/
theorem C7_admission_counterexample :
    grpc_admission (serve_config "[::]:50051") 10 = .queued
    ∧ grpc_admission (serve_config "[::]:50051") 10
        ≠ .rejectedResourceExhausted
    ∧ (serve_config "[::]:50051").maximum_concurrent_rpcs = none :=
  ⟨rfl, by decide, rfl⟩

/-- C8: `serve()` fixes its configuration at startup — a bounded pool of
10 workers and maximum inbound and outbound message sizes both equal to
20000000 bytes — and its main loop never mutates any of these values:
after any number of loop iterations the server state is unchanged. -/
theorem C8_serve_config_fixed (port : String) (n : Nat) :
    (serve_start port).config.thread_pool_max_workers = 10
    ∧ (serve_start port).config.max_send_message_length = 20000000
    ∧ (serve_start port).config.max_receive_message_length = 20000000
    ∧ serve_loop_step^[n] (serve_start port) = serve_start port :=
  ⟨rfl, rfl, rfl, Function.iterate_fixed rfl n⟩

/-- C9: the version triple embedded in every `status()` reply equals the
triple returned by `get_api_version()` — both are major=1, minor=2,
patch=3 — so the two operations can never disagree about the advertised
version. -/
theorem C9_status_version_matches_api_version (ρ γ ρ' γ' : Type)
    (r : ρ) (c : γ) (r' : ρ') (c' : γ') :
    ∃ (v : APIVersion) (reply : StatusReply),
      (BRIARService.get_api_version r c).outcome = .returned v
      ∧ (BRIARService.status r' c').outcome = .returned reply
      ∧ reply.version = v
      ∧ v = { major := 1, minor := 2, patch := 3 } :=
  ⟨_, _, rfl, rfl, rfl, rfl⟩

/-- C10: whenever `BRIAR_DIR` is bound to a root `r` in the environment,
`__init__` succeeds and stores `predictor_path` as the join of `r`,
"weights" and "predictor_model.dat" and `rec_model_path` as the join of
`r`, "weights" and "recognition_model.dat"; the `database_path` argument
is not stored on the instance (the stored state has no field for it and
the result is independent of it), and no database storage directory is
validated at construction. -/
theorem C10_init_stores_weight_paths (α : Type) (env : Env) (r : String)
    (opts : Option α) (dp dp' : String)
    (h : env.lookup "BRIAR_DIR" = some r) :
    BRIARService.mk_init env opts dp
        = .ok { predictor_path :=
                  path_join3 r BRIARService.DEFAULT_WEIGHTS_DIR
                    BRIARService.DEFAULT_PREDICTOR_NAME,
                rec_model_path :=
                  path_join3 r BRIARService.DEFAULT_WEIGHTS_DIR
                    BRIARService.DEFAULT_REC_MODEL_NAME,
                options := opts }
    ∧ BRIARService.mk_init env opts dp = BRIARService.mk_init env opts dp' := by
  refine ⟨?_, rfl⟩
  simp [BRIARService.mk_init, h]

/-- C10 witness: the theorem at the concrete environment binding
`BRIAR_DIR` to "/opt/briar", together with the evaluation of the joined
predictor path to "/opt/briar/weights/predictor_model.dat". -/
theorem C10_init_stores_weight_paths_witness :
    ([("BRIAR_DIR", "/opt/briar")] : Env).lookup "BRIAR_DIR" = some "/opt/briar"
    ∧ (BRIARService.mk_init [("BRIAR_DIR", "/opt/briar")]
          (none : Option Unit) "databases"
        = .ok { predictor_path :=
                  path_join3 "/opt/briar" BRIARService.DEFAULT_WEIGHTS_DIR
                    BRIARService.DEFAULT_PREDICTOR_NAME,
                rec_model_path :=
                  path_join3 "/opt/briar" BRIARService.DEFAULT_WEIGHTS_DIR
                    BRIARService.DEFAULT_REC_MODEL_NAME,
                options := none }
       ∧ BRIARService.mk_init [("BRIAR_DIR", "/opt/briar")]
            (none : Option Unit) "databases"
          = BRIARService.mk_init [("BRIAR_DIR", "/opt/briar")]
              (none : Option Unit) "/elsewhere")
    ∧ path_join3 "/opt/briar" BRIARService.DEFAULT_WEIGHTS_DIR
          BRIARService.DEFAULT_PREDICTOR_NAME
        = "/opt/briar/weights/predictor_model.dat" :=
  ⟨rfl,
   C10_init_stores_weight_paths Unit [("BRIAR_DIR", "/opt/briar")] "/opt/briar"
     none "databases" "/elsewhere" rfl,
   rfl⟩

end Briar
